import Mathlib

/-!
Shallow embedding of the verification-code and account-lifecycle subsystem of
the foodiemap backend.

Embedded sources:
* `src/src/models/EmailVerification.js` — create / verify / resend /
  generateVerificationCode over the `email_verifications` table.
* `src/src/routes/admin.js` — in-memory 2FA code store (`authCodes` Map),
  `generateAuthCode`, `POST /verify-auth`.
* `src/unnamed/part_006` (User model, simplified version) — requestDeletion,
  recoverAccount, getDeletionStatus, deleteExpiredAccounts over `users`.
* `src/src/routes/auth.js` — `POST /login`.
* `src/src/middleware/auth.js` — token auth middleware (`is_active` check).
* `src/migrations/add_account_deletion_columns.sql` — SQL functions
  `delete_expired_accounts`, `recover_account`, `get_deletion_status`.

Timestamps are milliseconds since epoch, as `Nat` (JS `Date.now()`); external
collaborators (bcrypt comparison) are abstracted as function parameters.
-/

/-- A row of the `email_verifications` table, as inserted by
`EmailVerification.create`. -/
structure VRec where
  id : Nat
  user_id : Option Nat
  email : String
  code : String
  expires_at : Nat
  is_verified : Bool
  created_at : Nat
  deriving Repr, DecidableEq

/-- A row of the `users` table, restricted to the columns the embedded
operations touch.  `password` is the stored credential consulted by the
login route; `deleted_at` / `is_active` are the deletion columns used by the
simplified User model. -/
structure URec where
  id : Nat
  email : String
  password : String
  email_verified : Bool
  is_active : Bool
  deleted_at : Option Nat
  deriving Repr, DecidableEq

/-- Backend state: the two tables, a fresh-id counter for inserts, and the
log of emails actually handed to the notification transport. -/
structure DBState where
  verifications : List VRec
  users : List URec
  nextId : Nat
  sentLog : List (String × String)
  deriving Repr, DecidableEq

/-- `EmailVerification.generateVerificationCode`:
`crypto.randomInt(100000, 1000000).toString()` — the CSPRNG draw is the
parameter `rand`, mapped into the half-open range [100000, 1000000). -/
def generateVerificationCode (rand : Nat) : String :=
  toString (100000 + rand % 900000)

/-- Numeric value of the generated code, before `.toString()`. -/
def generateVerificationCodeNat (rand : Nat) : Nat :=
  100000 + rand % 900000

/-- The five-minute TTL used by `EmailVerification.create`
(`Date.now() + 5 * 60 * 1000`). -/
def codeTTL : Nat := 5 * 60 * 1000

/-- `EmailVerification.create(userId, email)`: inserts a fresh row (never
touching existing rows), then attempts dispatch; a dispatch failure
(`dispatchOk = false`) is caught and logged only.  Returns the inserted row.
`rand` is the CSPRNG draw, `now` the clock reading. -/
def EmailVerification.create (userId : Option Nat) (email : String)
    (now rand : Nat) (dispatchOk : Bool) (st : DBState) : DBState × VRec :=
  let code := generateVerificationCode rand
  let rec_ : VRec :=
    { id := st.nextId, user_id := userId, email := email, code := code,
      expires_at := now + codeTTL, is_verified := false, created_at := now }
  let st' : DBState :=
    { st with
      verifications := st.verifications ++ [rec_],
      nextId := st.nextId + 1,
      sentLog := if dispatchOk then st.sentLog ++ [(email, code)] else st.sentLog }
  (st', rec_)

/-- The select of `EmailVerification.verify`: rows with matching email and
code, `is_verified = false`, `expires_at > now`. -/
def activeMatches (st : DBState) (email code : String) (now : Nat) : List VRec :=
  st.verifications.filter
    (fun r => r.email = email ∧ r.code = code ∧ r.is_verified = false ∧ now < r.expires_at)

/-- `order('created_at', descending).limit(1).single()`: the first row of
maximal `created_at` among the matches. -/
def pickNewest : List VRec → Option VRec
  | [] => none
  | r :: rs =>
    match pickNewest rs with
    | none => some r
    | some r' => if r'.created_at > r.created_at then some r' else some r

/-- The follow-up update of `EmailVerification.verify`: mark the selected row
`is_verified = true` (update is by `id` only, unconditional). -/
def consumeRec (st : DBState) (id : Nat) : DBState :=
  { st with
    verifications :=
      st.verifications.map (fun r => if r.id = id then { r with is_verified := true } else r) }

/-- The user-table update of `EmailVerification.verify`: set
`email_verified = true` on the row `id = user_id`. -/
def markUserVerified (st : DBState) (uid : Nat) : DBState :=
  { st with
    users := st.users.map (fun u => if u.id = uid then { u with email_verified := true } else u) }

/-- `EmailVerification.verify(email, code)`: select the newest active match;
`none` on no match (route-level failure); on a match, mark the row consumed
and then update the user row with `.eq('id', data.user_id).single()` — when no
user row matches (in particular `user_id` null), `.single()` errors and the
function throws, modelled as `Except.error`. -/
def EmailVerification.verify (email code : String) (now : Nat) (st : DBState) :
    Except Unit (DBState × Option VRec) :=
  match pickNewest (activeMatches st email code now) with
  | none => .ok (st, none)
  | some r =>
    let st1 := consumeRec st r.id
    match r.user_id with
    | none => .error ()
    | some uid =>
      if st1.users.any (fun u => u.id = uid) then
        .ok (markUserVerified st1 uid, some r)
      else
        .error ()

/-- `EmailVerification.resend(email)`: first mark every unverified row for
this email `is_verified = true`, then look up the user by email (throwing if
absent) and call `create`. -/
def EmailVerification.resend (email : String) (now rand : Nat) (dispatchOk : Bool)
    (st : DBState) : Except String (DBState × VRec) :=
  match st.users.find? (fun u => u.email = email) with
  | none => .error "User not found"
  | some u =>
    .ok (EmailVerification.create (some u.id) email now rand dispatchOk
      { st with
        verifications :=
          st.verifications.map
            (fun r => if r.email = email ∧ r.is_verified = false then { r with is_verified := true } else r) })

/-- Route-level response of `POST /verify-email` (part_009): HTTP status,
success flag and message.  Every `null` result of
`EmailVerification.verify` — NotFound, Expired and Mismatch alike — maps to
the one 400 response; a thrown error maps to the 500 response. -/
def verifyEmailRoute (email code : String) (now : Nat) (st : DBState) :
    DBState × (Nat × Bool × String) :=
  match EmailVerification.verify email code now st with
  | .error _ => (st, (500, false, "서버 오류가 발생했습니다."))
  | .ok (st', none) => (st', (400, false, "유효하지 않거나 만료된 인증 코드입니다."))
  | .ok (st', some _) => (st', (200, true, "이메일 인증이 완료되었습니다."))

/-- One value of the in-memory `authCodes` Map of `src/src/routes/admin.js`:
`{ code, expiresAt, adminData }` keyed by admin email. -/
structure AuthEntry where
  code : String
  expiresAt : Nat
  adminId : Nat
  deriving Repr, DecidableEq

/-- The `authCodes` Map, as an association list keyed by email. -/
abbrev AuthMap := List (String × AuthEntry)

/-- `authCodes.set(email, entry)` — Map.set replaces any previous entry for
the key. -/
def AuthMap.set (m : AuthMap) (email : String) (e : AuthEntry) : AuthMap :=
  (email, e) :: m.filter (fun p => p.1 ≠ email)

/-- `authCodes.get(email)`. -/
def AuthMap.get (m : AuthMap) (email : String) : Option AuthEntry :=
  (m.find? (fun p => p.1 = email)).map Prod.snd

/-- `authCodes.delete(email)`. -/
def AuthMap.del (m : AuthMap) (email : String) : AuthMap :=
  m.filter (fun p => p.1 ≠ email)

/-- Response of `POST /verify-auth`: HTTP status, success flag, message. -/
abbrev AdminResp := Nat × Bool × String

/-- `POST /verify-auth` (admin.js): look up the stored entry for the email;
missing entry, expiry (`new Date() > expiresAt`, deleting the entry) and
value mismatch each return their own distinct 401 message; on match the
entry is deleted and login completes. -/
def adminVerifyAuth (m : AuthMap) (email code : String) (now : Nat) :
    AuthMap × AdminResp :=
  match m.get email with
  | none => (m, (401, false, "인증 코드가 존재하지 않습니다. 다시 로그인해 주세요."))
  | some a =>
    if a.expiresAt < now then
      (m.del email, (401, false, "인증 코드가 만료되었습니다. 다시 로그인해 주세요."))
    else if a.code ≠ code then
      (m, (401, false, "잘못된 인증 코드입니다."))
    else
      (m.del email, (200, true, "관리자 로그인이 완료되었습니다."))

/-! ## Account lifecycle — simplified User model (part_006, first document)

`requestDeletion` / `recoverAccount` update the row unconditionally (no
status precondition); `.select().single()` after the update throws exactly
when no row has the given id, modelled as `Except.error`. -/

/-- `User.requestDeletion(userId, reason)` (simplified version): set
`deleted_at = now`, `is_active = false` on the row; the optional reason is
not stored.  Succeeds for any existing row, whatever its prior state. -/
def User.requestDeletion (users : List URec) (userId : Nat) (now : Nat) :
    Except Unit (List URec × Nat) :=
  if users.any (fun u => u.id = userId) then
    .ok (users.map (fun u =>
          if u.id = userId then { u with deleted_at := some now, is_active := false } else u),
         now)
  else
    .error ()

/-- `User.recoverAccount(userId)` (simplified version): set
`deleted_at = null`, `is_active = true` unconditionally on the row. -/
def User.recoverAccount (users : List URec) (userId : Nat) :
    Except Unit (List URec) :=
  if users.any (fun u => u.id = userId) then
    .ok (users.map (fun u =>
          if u.id = userId then { u with deleted_at := none, is_active := true } else u))
  else
    .error ()

/-- The projection returned by `User.getDeletionStatus` (simplified
version). -/
structure DeletionStatusView where
  is_deletion_scheduled : Bool
  is_active : Bool
  deletion_scheduled_at : Option Nat
  days_remaining : Nat
  can_recover : Bool
  deriving Repr, DecidableEq

/-- `User.getDeletionStatus(userId)` (simplified version): a pure select of
`deleted_at, is_active`; `days_remaining` is the literal `0`. -/
def User.getDeletionStatus (users : List URec) (userId : Nat) :
    Except Unit DeletionStatusView :=
  match users.find? (fun u => u.id = userId) with
  | none => .error ()
  | some u =>
    .ok { is_deletion_scheduled := u.deleted_at.isSome,
          is_active := u.is_active,
          deletion_scheduled_at := u.deleted_at,
          days_remaining := 0,
          can_recover := u.deleted_at.isSome }

/-- `User.deleteExpiredAccounts` (simplified version): `return 0` — the
store is untouched and the reported count is zero. -/
def User.deleteExpiredAccounts (users : List URec) : List URec × Nat :=
  (users, 0)

/-- `POST /login` (src/src/routes/auth.js): find the user by email, compare
the password (`bcrypt.compare`, abstracted as `cmp`), and on success issue a
token — no `is_active` / `deleted_at` check anywhere on this path.  Result:
HTTP status and success flag. -/
def loginRoute (cmp : String → String → Bool) (users : List URec)
    (email password : String) : Nat × Bool :=
  match users.find? (fun u => u.email = email) with
  | none => (401, false)
  | some u => if cmp password u.password then (200, true) else (401, false)

/-- Token middleware (src/src/middleware/auth.js): a request with a token
decoding to `userId` passes iff the user exists and `is_active` is not
`false`; an inactive account gets 403. -/
def authMiddleware (users : List URec) (userId : Nat) : Nat × Bool :=
  match users.find? (fun u => u.id = userId) with
  | none => (401, false)
  | some u => if u.is_active = false then (403, false) else (200, true)

/-! ## Account lifecycle — SQL functions
(src/migrations/add_account_deletion_columns.sql)

These operate on the schema the migration defines:
`deletion_scheduled_at`, `deletion_reason`, `is_active`. -/

/-- A `users` row as seen by the SQL functions of the migration. -/
structure SqlURec where
  id : Nat
  deletion_scheduled_at : Option Nat
  deletion_reason : Option String
  is_active : Bool
  deriving Repr, DecidableEq

/-- The 30-day grace period (`INTERVAL '30 days'`), in milliseconds. -/
def gracePeriodMs : Nat := 30 * 24 * 60 * 60 * 1000

/-- Eligibility test of `delete_expired_accounts`:
`deletion_scheduled_at IS NOT NULL AND deletion_scheduled_at <= NOW() - INTERVAL '30 days'`. -/
def sqlPurgeEligible (now : Nat) (u : SqlURec) : Bool :=
  match u.deletion_scheduled_at with
  | none => false
  | some t => t + gracePeriodMs ≤ now

/-- SQL `delete_expired_accounts()`: delete every eligible row and return
the number of rows deleted. -/
def sqlDeleteExpiredAccounts (now : Nat) (users : List SqlURec) :
    List SqlURec × Nat :=
  (users.filter (fun u => !(sqlPurgeEligible now u)),
   (users.filter (sqlPurgeEligible now)).length)

/-- SQL `recover_account(user_id)`: raises when the row's
`deletion_scheduled_at` is NULL (`NotPending`) or when
`scheduled_at <= NOW() - INTERVAL '30 days'` (`WindowExpired`); otherwise
clears `deletion_scheduled_at` and `deletion_reason` and sets
`is_active = TRUE`. -/
def sqlRecoverAccount (now : Nat) (users : List SqlURec) (userId : Nat) :
    Except String (List SqlURec) :=
  match (users.find? (fun u => u.id = userId)).bind SqlURec.deletion_scheduled_at with
  | none => .error "탈퇴 요청되지 않은 계정입니다."
  | some t =>
    if t + gracePeriodMs ≤ now then
      .error "복구 가능 기간이 지났습니다."
    else
      .ok (users.map (fun u =>
            if u.id = userId then
              { u with deletion_scheduled_at := none, deletion_reason := none,
                       is_active := true }
            else u))

/-- SQL `get_deletion_status(user_id)`: when pending, reports
`days_remaining = EXTRACT(DAY FROM (scheduled_at + 30 days - NOW()))` — the
day field of the signed interval, i.e. truncation toward zero of the
remaining time in days, which is negative once the window has lapsed. -/
def sqlGetDeletionStatus (now : Nat) (users : List SqlURec) (userId : Nat) :
    Except Unit (Bool × Int) :=
  match users.find? (fun u => u.id = userId) with
  | none => .error ()
  | some u =>
    match u.deletion_scheduled_at with
    | none => .ok (false, 0)
    | some t =>
      .ok (true, Int.tdiv ((t : Int) + (gracePeriodMs : Int) - (now : Int))
                          ((24 * 60 * 60 * 1000 : Nat) : Int))

/-! ## SHA-256 and `generateAuthCode` (src/src/routes/admin.js)

`generateAuthCode` hashes
`process.hrtime.bigint().toString() + Math.random().toString() + Date.now().toString()`
with SHA-256 and maps the first eight hex digits into a six-digit number.
SHA-256 is embedded from its standard definition (FIPS 180-4), over `Nat`
with explicit reduction mod 2^32. -/

/-- Reduce to a 32-bit word. -/
def w32 (x : Nat) : Nat := x % 4294967296

/-- 32-bit rotate right. -/
def rotr (n x : Nat) : Nat := w32 ((x >>> n) ||| (x <<< (32 - n)))

/-- Bitwise complement on 32 bits. -/
def not32 (x : Nat) : Nat := 4294967295 - w32 x

def sha256K : List Nat :=
  [1116352408, 1899447441, 3049323471, 3921009573, 961987163,
   1508970993, 2453635748, 2870763221, 3624381080, 310598401,
   607225278, 1426881987, 1925078388, 2162078206, 2614888103,
   3248222580, 3835390401, 4022224774, 264347078, 604807628,
   770255983, 1249150122, 1555081692, 1996064986, 2554220882,
   2821834349, 2952996808, 3210313671, 3336571891, 3584528711,
   113926993, 338241895, 666307205, 773529912, 1294757372,
   1396182291, 1695183700, 1986661051, 2177026350, 2456956037,
   2730485921, 2820302411, 3259730800, 3345764771, 3516065817,
   3600352804, 4094571909, 275423344, 430227734, 506948616,
   659060556, 883997877, 958139571, 1322822218, 1537002063,
   1747873779, 1955562222, 2024104815, 2227730452, 2361852424,
   2428436474, 2756734187, 3204031479, 3329325298]

def sha256H0 : List Nat :=
  [1779033703, 3144134277, 1013904242, 2773480762,
   1359893119, 2600822924, 528734635, 1541459225]

/-- Message padding: append 0x80, zero bytes to 56 mod 64, then the bit
length as eight big-endian bytes. -/
def sha256Pad (msg : List Nat) : List Nat :=
  let l := msg.length
  let zeros := (64 + 55 - l % 64) % 64
  let bitLen := 8 * l
  msg ++ [0x80] ++ List.replicate zeros 0 ++
    (List.range 8).map (fun i => (bitLen >>> (8 * (7 - i))) % 256)

/-- Split into 64-byte blocks (fuel-driven structural recursion). -/
def chunks64 : Nat → List Nat → List (List Nat)
  | 0, _ => []
  | _, [] => []
  | fuel + 1, l => l.take 64 :: chunks64 fuel (l.drop 64)

/-- The sixteen big-endian 32-bit words of one block. -/
def blockWords (b : List Nat) : List Nat :=
  (List.range 16).map (fun i =>
    b.getD (4 * i) 0 * 16777216 + b.getD (4 * i + 1) 0 * 65536 +
    b.getD (4 * i + 2) 0 * 256 + b.getD (4 * i + 3) 0)

/-- Extend the sixteen words to the 64-entry message schedule. -/
def sha256Schedule (w16 : List Nat) : List Nat :=
  (List.range 48).foldl
    (fun w _ =>
      let n := w.length
      let s0 := (rotr 7 (w.getD (n - 15) 0)) ^^^ (rotr 18 (w.getD (n - 15) 0)) ^^^
                ((w.getD (n - 15) 0) >>> 3)
      let s1 := (rotr 17 (w.getD (n - 2) 0)) ^^^ (rotr 19 (w.getD (n - 2) 0)) ^^^
                ((w.getD (n - 2) 0) >>> 10)
      w ++ [w32 (w.getD (n - 16) 0 + s0 + w.getD (n - 7) 0 + s1)])
    w16

/-- One compression round over the running state `[a,b,c,d,e,f,g,h]`. -/
def sha256Round (st : List Nat) (k w : Nat) : List Nat :=
  match st with
  | [a, b, c, d, e, f, g, h] =>
    let s1 := (rotr 6 e) ^^^ (rotr 11 e) ^^^ (rotr 25 e)
    let ch := (e &&& f) ^^^ ((not32 e) &&& g)
    let t1 := w32 (h + s1 + ch + k + w)
    let s0 := (rotr 2 a) ^^^ (rotr 13 a) ^^^ (rotr 22 a)
    let mj := (a &&& b) ^^^ (a &&& c) ^^^ (b &&& c)
    let t2 := w32 (s0 + mj)
    [w32 (t1 + t2), a, b, c, w32 (d + t1), e, f, g]
  | _ => st

/-- Compress one block into the hash state. -/
def sha256Compress (h : List Nat) (block : List Nat) : List Nat :=
  let ws := sha256Schedule (blockWords block)
  let st := (List.range 64).foldl
    (fun st i => sha256Round st (sha256K.getD i 0) (ws.getD i 0)) h
  (List.range 8).map (fun i => w32 (h.getD i 0 + st.getD i 0))

/-- SHA-256 digest as eight 32-bit words. -/
def sha256Words (msg : List Nat) : List Nat :=
  ((chunks64 (msg.length + 9) (sha256Pad msg)).foldl sha256Compress sha256H0)

/-- UTF-8 bytes of an ASCII string (all inputs hashed by the source are
ASCII: decimal digits and a dot). -/
def strBytes (s : String) : List Nat := s.data.map Char.toNat

/-- `generateAuthCode` (admin.js): SHA-256 of
`hrtime.toString() + mathRandom + dateNow.toString()`;
`parseInt(hash.substring(0, 8), 16)` is the first digest word;
code = that `% 900000 + 100000`.  The function's only inputs are the two
wall-clock readings and the `Math.random()` output — no CSPRNG draw. -/
def generateAuthCode (hrtimeNs : Nat) (mathRandomStr : String) (dateNowMs : Nat) : Nat :=
  let combined := toString hrtimeNs ++ mathRandomStr ++ toString dateNowMs
  (sha256Words (strBytes combined)).getD 0 0 % 900000 + 100000

/-! ## Interleaving model for concurrent `verify` calls

`EmailVerification.verify` performs its match check (the select) and its
consumption (the unconditional update by id) as two separate store round
trips.  Two concurrent calls are modelled as two processes of two steps
each — step 1 runs the select against the current store, step 2 runs the
update — interleaved by a schedule (`true` = first process moves). -/

/-- The select of `verify`: newest active row for (email, code) at `now`. -/
def verifySelect (st : DBState) (email code : String) (now : Nat) : Option VRec :=
  pickNewest (activeMatches st email code now)

/-- Per-process state: `sel = none` before the select ran; `some none`
when the select found nothing (the call returns failure); `some (some id)`
when it selected row `id`.  `consumed` records whether the update ran. -/
structure VerifyProc where
  sel : Option (Option Nat)
  consumed : Bool
  deriving Repr, DecidableEq

def VerifyProc.init : VerifyProc := { sel := none, consumed := false }

/-- The call reports success exactly when its select found a row: the
follow-up update is unconditional and cannot change the outcome. -/
def VerifyProc.success (p : VerifyProc) : Bool :=
  match p.sel with
  | some (some _) => true
  | _ => false

/-- Run one step of one process against the shared store. -/
def stepVerify (email code : String) (now : Nat) :
    DBState × VerifyProc → DBState × VerifyProc
  | (st, p) =>
    match p.sel with
    | none => (st, { p with sel := some ((verifySelect st email code now).map VRec.id) })
    | some none => (st, p)
    | some (some id) =>
      if p.consumed then (st, p) else (consumeRec st id, { p with consumed := true })

/-- Shared store plus the two racing processes. -/
structure RaceState where
  st : DBState
  p1 : VerifyProc
  p2 : VerifyProc
  deriving Repr, DecidableEq

def raceStep (email code : String) (now : Nat) (s : RaceState) (who : Bool) : RaceState :=
  if who then
    let r := stepVerify email code now (s.st, s.p1)
    { s with st := r.1, p1 := r.2 }
  else
    let r := stepVerify email code now (s.st, s.p2)
    { s with st := r.1, p2 := r.2 }

/-- Run a schedule of interleaved steps. -/
def raceRun (email code : String) (now : Nat) (sched : List Bool) (s : RaceState) :
    RaceState :=
  sched.foldl (raceStep email code now) s

/-- `true` iff a `verify` call returned a consumed row (route-level
success). -/
def isVerifySuccess (e : Except Unit (DBState × Option VRec)) : Bool :=
  match e with
  | .ok (_, some _) => true
  | _ => false

/-- Purge eligibility as the claim states it, over the simplified User
schema: pending and requested at least one grace period ago. -/
def jsPurgeEligible (now : Nat) (u : URec) : Bool :=
  match u.deleted_at with
  | none => false
  | some t => t + gracePeriodMs ≤ now

/-- The days-remaining formula the spec claims:
`max(0, gracePeriod − (now − deletion_requested_at))`, in whole days. -/
def claimedDaysRemaining (now requested : Nat) : Nat :=
  30 - min 30 ((now - requested) / 86400000)

/-! ## Helper lemmas -/

theorem mem_activeMatches {st : DBState} {e c : String} {now : Nat} {x : VRec} :
    x ∈ activeMatches st e c now ↔
      x ∈ st.verifications ∧ x.email = e ∧ x.code = c ∧ x.is_verified = false ∧
        now < x.expires_at := by
  unfold activeMatches
  rw [List.mem_filter]
  simp

/-- Consuming the unique active match leaves no active match at any later
instant. -/
theorem activeMatches_consumeRec_of_unique {st : DBState} {e c : String}
    {now now' : Nat} {r : VRec}
    (h : activeMatches st e c now = [r]) (hle : now ≤ now') :
    activeMatches (consumeRec st r.id) e c now' = [] := by
  unfold activeMatches consumeRec
  rw [List.filter_eq_nil_iff]
  intro a ha
  simp only [List.mem_map] at ha
  obtain ⟨x, hx, rfl⟩ := ha
  by_cases hid : x.id = r.id
  · simp [hid]
  · simp only [hid, if_false, decide_eq_true_eq, not_and]
    intro hmail hcode hver hexp
    have hxm : x ∈ activeMatches st e c now := by
      rw [mem_activeMatches]
      exact ⟨hx, hmail, hcode, hver, lt_of_le_of_lt hle hexp⟩
    rw [h, List.mem_singleton] at hxm
    exact absurd (congrArg VRec.id hxm) hid

theorem pickNewest_singleton (r : VRec) : pickNewest [r] = some r := rfl

/-- `markUserVerified` leaves the verification table untouched. -/
theorem markUserVerified_verifications (st : DBState) (uid : Nat) :
    (markUserVerified st uid).verifications = st.verifications := rfl

/-- A deleted key is gone from the `authCodes` map. -/
theorem AuthMap.get_del (m : AuthMap) (e : String) : (m.del e).get e = none := by
  unfold AuthMap.del AuthMap.get
  rw [List.find?_eq_none.mpr]
  · rfl
  · intro x hx
    have := (List.mem_filter.mp hx).2
    simp only [decide_eq_true_eq] at this ⊢
    simpa using this

/-! ## Concrete fixtures used by counterexamples and witnesses -/

/-- A registered user. -/
def demoUser : URec :=
  { id := 7, email := "a@x.com", password := "pw", email_verified := false,
    is_active := true, deleted_at := none }

/-- The same user after a deletion request at time 0. -/
def pendingUser : URec :=
  { id := 7, email := "a@x.com", password := "pw", email_verified := false,
    is_active := false, deleted_at := some 0 }

/-- Empty store holding only `demoUser`. -/
def demoState : DBState :=
  { verifications := [], users := [demoUser], nextId := 0, sentLog := [] }

/-- A still-valid verification code issued at time 0 for `demoUser`. -/
def demoRec : VRec :=
  { id := 0, user_id := some 7, email := "a@x.com", code := "123456",
    expires_at := 300000, is_verified := false, created_at := 0 }

/-- Store holding `demoUser` and the single valid code `demoRec`. -/
def demoCodeState : DBState :=
  { verifications := [demoRec], users := [demoUser], nextId := 1, sentLog := [] }

/-- A stored admin 2FA entry. -/
def demoAuthEntry : AuthEntry := { code := "111111", expiresAt := 1000, adminId := 1 }

/-! ## Claims -/

/-- C1, counterexample: the claim says issuing a new code invalidates any
prior still-active code for the same identity in the same operation, so that
verifying the first code's value after a second issuance fails.  On the
code, `EmailVerification.create` (the issuing operation used by
`POST /send-email-verification`) only inserts: after a second `create` for
`a@x.com`, verifying the first code's value `"123456"` still SUCCEEDS. -/
theorem c1_counterexample :
    isVerifySuccess
      (EmailVerification.verify "a@x.com" "123456" 120000
        (EmailVerification.create (some 7) "a@x.com" 60000 554433 true
          (EmailVerification.create (some 7) "a@x.com" 0 23456 true demoState).1).1)
      = true := by decide

/-- C1, amended: only `EmailVerification.resend` supersedes — it first marks
every unverified code for the email consumed, so after a successful resend
the only unconsumed code for that email is the newly inserted one (the row
with the fresh id `st.nextId`); `create` alone does not invalidate prior
codes. -/
theorem c1_resend_supersedes (st st' : DBState) (email : String)
    (now rand : Nat) (dOk : Bool) (r : VRec)
    (h : EmailVerification.resend email now rand dOk st = .ok (st', r)) :
    ∀ v ∈ st'.verifications, v.email = email → v.is_verified = false →
      v.id = st.nextId := by
  unfold EmailVerification.resend at h
  cases hfind : st.users.find? (fun u => u.email = email) with
  | none => rw [hfind] at h; exact absurd h (by simp)
  | some u =>
    rw [hfind] at h
    simp only [Except.ok.injEq] at h
    have hst : st' = (EmailVerification.create (some u.id) email now rand dOk
        { st with verifications :=
            st.verifications.map (fun r =>
              if r.email = email ∧ r.is_verified = false then { r with is_verified := true } else r) }).1 := by
      rw [h]
    subst hst
    intro v hv hmail hver
    simp only [EmailVerification.create, List.mem_append] at hv
    rcases hv with hv | hv
    · obtain ⟨x, hx, rfl⟩ := List.mem_map.mp hv
      by_cases hc : x.email = email ∧ x.is_verified = false
      · simp only [hc, if_true] at hver
        exact absurd hver (by simp)
      · simp only [hc, if_false] at hmail hver
        exact absurd ⟨hmail, hver⟩ hc
    · simp only [List.mem_singleton] at hv
      subst hv
      rfl

/-- Store with one active code, used to exercise `resend`. -/
def demoResendState : DBState :=
  { verifications := [{ id := 5, user_id := some 7, email := "a@x.com", code := "111111",
                        expires_at := 300000, is_verified := false, created_at := 0 }],
    users := [demoUser], nextId := 6, sentLog := [] }

/-- The store `demoResendState` becomes after
`resend "a@x.com"` at time 60000 with CSPRNG draw 554433. -/
def demoResendResult : DBState :=
  { verifications := [{ id := 5, user_id := some 7, email := "a@x.com", code := "111111",
                        expires_at := 300000, is_verified := true, created_at := 0 },
                      { id := 6, user_id := some 7, email := "a@x.com", code := "654433",
                        expires_at := 360000, is_verified := false, created_at := 60000 }],
    users := [demoUser], nextId := 7, sentLog := [("a@x.com", "654433")] }

/-- The code row that resend inserts into `demoResendState`. -/
def demoNewRec : VRec :=
  { id := 6, user_id := some 7, email := "a@x.com", code := "654433",
    expires_at := 360000, is_verified := false, created_at := 60000 }

/-- C1, witness: a concrete successful resend satisfying the hypotheses of
`c1_resend_supersedes`; the only unconsumed code left for the email is the
freshly inserted row. -/
theorem c1_witness :
    EmailVerification.resend "a@x.com" 60000 554433 true demoResendState
      = .ok (demoResendResult, demoNewRec) ∧
    demoNewRec.id = demoResendState.nextId :=
  ⟨rfl,
   c1_resend_supersedes demoResendState demoResendResult "a@x.com" 60000 554433 true
     demoNewRec rfl demoNewRec (by decide) (by decide) (by decide)⟩

/-- C2, counterexample: the claim says verify is an atomic check-and-consume,
so two concurrent verify calls on one still-valid code never both succeed.
In the code the check (select) and the consumption (unconditional update)
are separate store round trips: on a store whose single active match is
`demoRec`, the interleaving select₁·select₂·update₁·update₂ makes BOTH calls
succeed. -/
theorem c2_counterexample :
    activeMatches demoCodeState "a@x.com" "123456" 100 = [demoRec] ∧
    (raceRun "a@x.com" "123456" 100 [true, false, true, false]
        { st := demoCodeState, p1 := .init, p2 := .init }).p1.success = true ∧
    (raceRun "a@x.com" "123456" 100 [true, false, true, false]
        { st := demoCodeState, p1 := .init, p2 := .init }).p2.success = true := by
  decide

/-- C2, amended: the check and the consumption are two separate store
operations, so interleaved concurrent calls can both succeed; only when the
two calls run sequentially (first call completes both steps before the
second starts) does a single still-valid code yield exactly one success and
one failure. -/
theorem c2_sequential_one_success (st : DBState) (e c : String) (now : Nat)
    (r : VRec) (h : activeMatches st e c now = [r]) :
    (raceRun e c now [true, true, false, false]
        { st := st, p1 := .init, p2 := .init }).p1.success = true ∧
    (raceRun e c now [true, true, false, false]
        { st := st, p1 := .init, p2 := .init }).p2.success = false := by
  have h1 : verifySelect st e c now = some r := by
    unfold verifySelect; rw [h]; rfl
  have h2 : verifySelect (consumeRec st r.id) e c now = none := by
    unfold verifySelect
    rw [activeMatches_consumeRec_of_unique h le_rfl]
    rfl
  simp [raceRun, raceStep, stepVerify, h1, h2, VerifyProc.init, VerifyProc.success]

/-- C2, witness: the sequential schedule on the concrete one-valid-code
store gives exactly one success and one failure. -/
theorem c2_witness :
    activeMatches demoCodeState "a@x.com" "123456" 100 = [demoRec] ∧
    (raceRun "a@x.com" "123456" 100 [true, true, false, false]
        { st := demoCodeState, p1 := .init, p2 := .init }).p1.success = true ∧
    (raceRun "a@x.com" "123456" 100 [true, true, false, false]
        { st := demoCodeState, p1 := .init, p2 := .init }).p2.success = false :=
  ⟨by decide,
   (c2_sequential_one_success demoCodeState "a@x.com" "123456" 100 demoRec (by decide)).1,
   (c2_sequential_one_success demoCodeState "a@x.com" "123456" 100 demoRec (by decide)).2⟩

/-- A successful `POST /verify-auth` leaves the map with the entry for the
email deleted. -/
theorem adminVerifyAuth_success_map (m : AuthMap) (e c : String) (n : Nat)
    (h : (adminVerifyAuth m e c n).2.2.1 = true) :
    (adminVerifyAuth m e c n).1 = AuthMap.del m e := by
  simp only [adminVerifyAuth] at h ⊢
  cases hget : AuthMap.get m e with
  | none => simp only [hget] at h; cases h
  | some a =>
    simp only [hget] at h ⊢
    split_ifs at h ⊢
    simp_all

/-- `POST /verify-auth` on a map without an entry for the email returns the
not-found failure. -/
theorem adminVerifyAuth_get_none (m : AuthMap) (e c : String) (n : Nat)
    (h : AuthMap.get m e = none) :
    adminVerifyAuth m e c n
      = (m, (401, false, "인증 코드가 존재하지 않습니다. 다시 로그인해 주세요.")) := by
  simp only [adminVerifyAuth, h]

/-- C3: a consumed code never verifies again, in both flows.  Email flow:
when the active match for (email, code) is unique and `verify` succeeds
(consuming it), every later `verify` with the same value fails (returns no
row).  Operator-2FA flow: a successful `POST /verify-auth` deletes the
stored entry, so every subsequent call for the same email fails. -/
theorem c3_consumed_code_never_verifies_again
    (st st' : DBState) (email code : String) (now now' : Nat) (r : VRec)
    (m : AuthMap) (aEmail aCode : String) (aNow : Nat)
    (hle : now ≤ now')
    (huniq : activeMatches st email code now = [r])
    (hsucc : EmailVerification.verify email code now st = .ok (st', some r))
    (hasucc : (adminVerifyAuth m aEmail aCode aNow).2.2.1 = true) :
    EmailVerification.verify email code now' st' = .ok (st', none) ∧
    (∀ aCode' : String, ∀ aNow' : Nat,
      (adminVerifyAuth (adminVerifyAuth m aEmail aCode aNow).1 aEmail aCode' aNow').2.2.1
        = false) := by
  constructor
  · unfold EmailVerification.verify at hsucc ⊢
    split at hsucc
    · exact absurd hsucc (by simp)
    next r0 hp =>
      split at hsucc
      · exact absurd hsucc (by simp)
      next uid hu =>
        dsimp only [] at hsucc
        split at hsucc
        · simp only [Except.ok.injEq, Prod.mk.injEq, Option.some.injEq] at hsucc
          obtain ⟨hst', hr⟩ := hsucc
          subst hr
          subst hst'
          have hAm : activeMatches (markUserVerified (consumeRec st r0.id) uid)
              email code now' = [] := by
            unfold activeMatches
            rw [markUserVerified_verifications]
            have h0 := activeMatches_consumeRec_of_unique huniq hle
            unfold activeMatches at h0
            exact h0
          rw [hAm]
          rfl
        · exact absurd hsucc (by simp)
  · intro aCode' aNow'
    rw [adminVerifyAuth_success_map m aEmail aCode aNow hasucc]
    rw [adminVerifyAuth_get_none (AuthMap.del m aEmail) aEmail aCode' aNow'
      (AuthMap.get_del m aEmail)]

/-- C3, witness: concrete instances of both flows — a verified code for
`demoUser` fails on the second attempt, and a consumed admin 2FA entry
fails on the second attempt. -/
theorem c3_witness :
    EmailVerification.verify "a@x.com" "123456" 200000
        (markUserVerified (consumeRec demoCodeState 0) 7) = .ok (markUserVerified (consumeRec demoCodeState 0) 7, none) ∧
    (∀ aCode' : String, ∀ aNow' : Nat,
      (adminVerifyAuth (adminVerifyAuth [("e@x.com", demoAuthEntry)] "e@x.com" "111111" 500).1
          "e@x.com" aCode' aNow').2.2.1 = false) :=
  c3_consumed_code_never_verifies_again demoCodeState
    (markUserVerified (consumeRec demoCodeState 0) 7) "a@x.com" "123456" 100 200000 demoRec
    [("e@x.com", demoAuthEntry)] "e@x.com" "111111" 500
    (by decide) (by decide) rfl (by decide)

/-- C4, counterexample: the claim says `requestDeletion` on a non-active
account fails with AlreadyPending, and that login is refused for the whole
grace window.  On the code, `User.requestDeletion` has no status check —
called on the already-pending `pendingUser` it succeeds (overwriting the
request timestamp) — and `POST /login` checks only existence and password,
so the pending (inactive) account still logs in. -/
theorem c4_counterexample :
    (User.requestDeletion [pendingUser] 7 1000).isOk = true ∧
    loginRoute (fun p h => p == h) [pendingUser] "a@x.com" "pw" = (200, true) := by
  decide

/-- C4, amended: `requestDeletion` succeeds on any existing account
regardless of its status, setting `deleted_at := now` and
`is_active := false` (so on an `active` account it behaves as claimed);
`POST /login` is NOT refused for a pending-deletion account — only
token-authenticated requests are rejected (403) while `is_active` is
false. -/
theorem c4_amended (users : List URec) (uid now : Nat)
    (cmp : String → String → Bool) (email pw : String) :
    (users.any (fun x => x.id = uid) = true →
      ∃ users', User.requestDeletion users uid now = .ok (users', now) ∧
        ∀ v ∈ users', v.id = uid → v.deleted_at = some now ∧ v.is_active = false) ∧
    (∀ u, users.find? (fun x => x.email = email) = some u →
      cmp pw u.password = true → loginRoute cmp users email pw = (200, true)) ∧
    (∀ u, users.find? (fun x => x.id = uid) = some u → u.is_active = false →
      authMiddleware users uid = (403, false)) := by
  refine ⟨fun hex => ?_, fun u hfind hcmp => ?_, fun u hfind hinact => ?_⟩
  · refine ⟨users.map (fun u =>
        if u.id = uid then { u with deleted_at := some now, is_active := false } else u),
      ?_, ?_⟩
    · unfold User.requestDeletion
      rw [hex, if_pos rfl]
    intro v hv hvid
    obtain ⟨x, hx, rfl⟩ := List.mem_map.mp hv
    by_cases hid : x.id = uid
    · simp [hid]
    · simp only [hid, if_false] at hvid
  · simp only [loginRoute, hfind, hcmp, if_true]
  · simp only [authMiddleware, hfind, hinact, if_true]

/-- C4, witness: concrete instances — a second `requestDeletion` on the
pending account succeeds with the new timestamp, the pending account logs
in with the right password, and the token middleware rejects it. -/
theorem c4_witness :
    (∃ users', User.requestDeletion [pendingUser] 7 1000 = .ok (users', 1000) ∧
       ∀ v ∈ users', v.id = 7 → v.deleted_at = some 1000 ∧ v.is_active = false) ∧
    loginRoute (fun p h => p == h) [pendingUser] "a@x.com" "pw" = (200, true) ∧
    authMiddleware [pendingUser] 7 = (403, false) :=
  ⟨(c4_amended [pendingUser] 7 1000 (fun p h => p == h) "a@x.com" "pw").1 (by decide),
   (c4_amended [pendingUser] 7 1000 (fun p h => p == h) "a@x.com" "pw").2.1 pendingUser
     (by decide) (by decide),
   (c4_amended [pendingUser] 7 1000 (fun p h => p == h) "a@x.com" "pw").2.2 pendingUser
     (by decide) (by decide)⟩

/-- C5, counterexample: the claim says `recoverAccount` succeeds iff the
account is pending and within the window, failing with NotPending
otherwise.  On the code, `User.recoverAccount` has no check at all: called
on the fully active `demoUser` it succeeds. -/
theorem c5_counterexample :
    (User.recoverAccount [demoUser] 7).isOk = true := by decide

/-- C5, amended: the model-layer `User.recoverAccount` succeeds for every
existing account unconditionally (it ignores status and elapsed time) and
restores `deleted_at = null`, `is_active = true`; the NotPending /
WindowExpired checks exist only in the SQL function `recover_account`,
which succeeds iff the row is pending and `now < requested + 30 days`
(raising at exactly 30 days). -/
theorem c5_amended (users : List URec) (uid : Nat) (now : Nat)
    (susers : List SqlURec) (suid : Nat) :
    (users.any (fun x => x.id = uid) = true →
      ∃ users', User.recoverAccount users uid = .ok users' ∧
        ∀ v ∈ users', v.id = uid → v.deleted_at = none ∧ v.is_active = true) ∧
    ((sqlRecoverAccount now susers suid).isOk = true ↔
      ∃ t, (susers.find? (fun x => x.id = suid)).bind SqlURec.deletion_scheduled_at
             = some t ∧ now < t + gracePeriodMs) := by
  constructor
  · intro hex
    refine ⟨users.map (fun u =>
        if u.id = uid then { u with deleted_at := none, is_active := true } else u),
      ?_, ?_⟩
    · unfold User.recoverAccount
      rw [hex, if_pos rfl]
    intro v hv hvid
    obtain ⟨x, hx, rfl⟩ := List.mem_map.mp hv
    by_cases hid : x.id = uid
    · simp [hid]
    · simp only [hid, if_false] at hvid
  · unfold sqlRecoverAccount
    cases hb : (susers.find? (fun x => x.id = suid)).bind SqlURec.deletion_scheduled_at with
    | none =>
      constructor
      · intro h; exact Bool.noConfusion h
      · rintro ⟨t', ht', -⟩; cases ht'
    | some t =>
      by_cases hexp : t + gracePeriodMs ≤ now
      · simp only [hexp, if_true]
        constructor
        · intro h; exact Bool.noConfusion h
        · rintro ⟨t', ht', hlt⟩
          obtain rfl : t = t' := Option.some.inj ht'
          omega
      · simp only [hexp, if_false]
        constructor
        · intro _; exact ⟨t, rfl, by omega⟩
        · intro _; rfl

/-- C5, witness: the pending `pendingUser` is recovered unconditionally by
the model layer, and the SQL function's success condition holds for a
concrete pending row checked inside its window. -/
theorem c5_witness :
    (∃ users', User.recoverAccount [pendingUser] 7 = .ok users' ∧
       ∀ v ∈ users', v.id = 7 → v.deleted_at = none ∧ v.is_active = true) ∧
    ((sqlRecoverAccount 1000
        [{ id := 7, deletion_scheduled_at := some 0, deletion_reason := none,
           is_active := false }] 7).isOk = true ↔
      ∃ t, ([{ id := 7, deletion_scheduled_at := some 0, deletion_reason := none,
               is_active := false }].find? (fun x => x.id = 7)).bind
             SqlURec.deletion_scheduled_at = some t ∧ 1000 < t + gracePeriodMs) :=
  ⟨(c5_amended [pendingUser] 7 1000
      [{ id := 7, deletion_scheduled_at := some 0, deletion_reason := none,
         is_active := false }] 7).1 (by decide),
   (c5_amended [pendingUser] 7 1000
      [{ id := 7, deletion_scheduled_at := some 0, deletion_reason := none,
         is_active := false }] 7).2⟩

/-- Bool-valued filter partition: removing the rows satisfying `p` and
counting them accounts for every row. -/
theorem length_filter_not_add_length_filter (p : α → Bool) (l : List α) :
    (l.filter (fun a => !(p a))).length + (l.filter p).length = l.length := by
  induction l with
  | nil => rfl
  | cons a l ih =>
    by_cases h : p a <;> simp [List.filter_cons, h] <;> omega

/-- An eligible pending account: deletion requested at time 0, inspected a
full grace period later. -/
def expiredPendingUser : URec :=
  { id := 8, email := "b@x.com", password := "pw", email_verified := true,
    is_active := false, deleted_at := some 0 }

/-- C6, counterexample: the claim says one purge sweep removes exactly the
accounts whose grace period has elapsed and returns their count.  The sweep
invoked by the daily cron job is `User.deleteExpiredAccounts`, which is a
stub: on a store containing an account eligible for purging it removes
nothing and returns 0. -/
theorem c6_counterexample :
    jsPurgeEligible gracePeriodMs expiredPendingUser = true ∧
    User.deleteExpiredAccounts [expiredPendingUser] = ([expiredPendingUser], 0) := by
  decide

/-- C6, amended: the model-layer `User.deleteExpiredAccounts` (what the
cron job runs) always returns the store unchanged with count 0; the SQL
function `delete_expired_accounts` — present in the migration but not
called by the model — does remove exactly the rows with
`deletion_scheduled_at ≤ now − 30 days`, keeps every other row, and
returns the number removed. -/
theorem c6_amended (users : List URec) (now : Nat) (susers : List SqlURec) :
    User.deleteExpiredAccounts users = (users, 0) ∧
    (∀ u ∈ (sqlDeleteExpiredAccounts now susers).1, sqlPurgeEligible now u = false) ∧
    (∀ u ∈ susers, sqlPurgeEligible now u = false →
      u ∈ (sqlDeleteExpiredAccounts now susers).1) ∧
    (∀ u ∈ susers, sqlPurgeEligible now u = true →
      u ∉ (sqlDeleteExpiredAccounts now susers).1) ∧
    (sqlDeleteExpiredAccounts now susers).1.length
      + (sqlDeleteExpiredAccounts now susers).2 = susers.length := by
  refine ⟨rfl, ?_, ?_, ?_, ?_⟩
  · intro u hu
    have := (List.mem_filter.mp hu).2
    simpa using this
  · intro u hu hne
    exact List.mem_filter.mpr ⟨hu, by simpa using hne⟩
  · intro u _ hel hmem
    have := (List.mem_filter.mp hmem).2
    simp [hel] at this
  · exact length_filter_not_add_length_filter (sqlPurgeEligible now) susers

/-- C6, witness: on a two-row store with one eligible and one fresh pending
row, the SQL sweep keeps the fresh row, drops the eligible row, and counts
1 — while the model-layer sweep does nothing. -/
theorem c6_witness :
    User.deleteExpiredAccounts [expiredPendingUser] = ([expiredPendingUser], 0) ∧
    sqlPurgeEligible gracePeriodMs
      { id := 9, deletion_scheduled_at := some 10, deletion_reason := none,
        is_active := false } = false ∧
    ({ id := 9, deletion_scheduled_at := some 10, deletion_reason := none,
       is_active := false } : SqlURec)
      ∈ (sqlDeleteExpiredAccounts gracePeriodMs
          [{ id := 8, deletion_scheduled_at := some 0, deletion_reason := none,
             is_active := false },
           { id := 9, deletion_scheduled_at := some 10, deletion_reason := none,
             is_active := false }]).1 ∧
    ({ id := 8, deletion_scheduled_at := some 0, deletion_reason := none,
       is_active := false } : SqlURec)
      ∉ (sqlDeleteExpiredAccounts gracePeriodMs
          [{ id := 8, deletion_scheduled_at := some 0, deletion_reason := none,
             is_active := false },
           { id := 9, deletion_scheduled_at := some 10, deletion_reason := none,
             is_active := false }]).1 :=
  ⟨(c6_amended [expiredPendingUser] gracePeriodMs []).1,
   by decide,
   (c6_amended [] gracePeriodMs
      [{ id := 8, deletion_scheduled_at := some 0, deletion_reason := none,
         is_active := false },
       { id := 9, deletion_scheduled_at := some 10, deletion_reason := none,
         is_active := false }]).2.2.1
      { id := 9, deletion_scheduled_at := some 10, deletion_reason := none,
        is_active := false } (by decide) (by decide),
   (c6_amended [] gracePeriodMs
      [{ id := 8, deletion_scheduled_at := some 0, deletion_reason := none,
         is_active := false },
       { id := 9, deletion_scheduled_at := some 10, deletion_reason := none,
         is_active := false }]).2.2.2.1
      { id := 8, deletion_scheduled_at := some 0, deletion_reason := none,
        is_active := false } (by decide) (by decide)⟩

set_option maxRecDepth 10000 in
/-- C7, counterexample: the claim says neither generator's value is derived
from wall-clock time.  `generateAuthCode` (operator 2FA) hashes the
`process.hrtime` nanosecond reading (with `Math.random` and `Date.now`):
changing only that clock reading changes the code, so the value IS derived
from the wall clock. -/
theorem c7_counterexample :
    generateAuthCode 12345 "0.5" 67890 ≠ generateAuthCode 12346 "0.5" 67890 := by
  decide

set_option maxRecDepth 10000 in
/-- C7, amended: the email-verification generator returns its CSPRNG draw
mapped into the six-digit range [100000, 999999]; the operator-2FA
generator also yields six digits, but is a deterministic function of the
two wall-clock readings and the `Math.random` output (no CSPRNG input),
and its value varies with the clock. -/
theorem c7_code_generators :
    (∀ r : Nat, 100000 ≤ generateVerificationCodeNat r ∧
       generateVerificationCodeNat r ≤ 999999 ∧
       generateVerificationCode r = toString (generateVerificationCodeNat r)) ∧
    (∀ t d : Nat, ∀ s : String,
       100000 ≤ generateAuthCode t s d ∧ generateAuthCode t s d ≤ 999999) ∧
    (∃ t u d : Nat, ∃ s : String, generateAuthCode t s d ≠ generateAuthCode u s d) := by
  refine ⟨fun r => ⟨?_, ?_, rfl⟩, fun t d s => ⟨?_, ?_⟩,
    ⟨12345, 12346, 67890, "0.5", by decide⟩⟩
  · exact Nat.le_add_right 100000 (r % 900000)
  · have h : r % 900000 < 900000 := Nat.mod_lt r (by norm_num)
    unfold generateVerificationCodeNat
    omega
  · dsimp only [generateAuthCode]
    omega
  · dsimp only [generateAuthCode]
    have h : (sha256Words (strBytes (toString t ++ s ++ toString d))).getD 0 0 % 900000
        < 900000 := Nat.mod_lt _ (by norm_num)
    omega

/-- C8, counterexample: the claim says every failed verify is surfaced as
one generic message in either flow.  The operator-2FA route returns three
different messages: a missing entry, an expired entry and a wrong value
each produce their own response body. -/
theorem c8_counterexample :
    (adminVerifyAuth [] "e@x.com" "111111" 500).2.2.2
        ≠ (adminVerifyAuth [("e@x.com", demoAuthEntry)] "e@x.com" "111111" 2000).2.2.2 ∧
    (adminVerifyAuth [] "e@x.com" "111111" 500).2.2.2
        ≠ (adminVerifyAuth [("e@x.com", demoAuthEntry)] "e@x.com" "222222" 500).2.2.2 ∧
    (adminVerifyAuth [("e@x.com", demoAuthEntry)] "e@x.com" "111111" 2000).2.2.2
        ≠ (adminVerifyAuth [("e@x.com", demoAuthEntry)] "e@x.com" "222222" 500).2.2.2 := by
  decide

/-- C8, amended: the email flow does return the one generic
"invalid or expired code" message for every NotFound / Expired / Mismatch
failure (all three map to the same null result of `verify`), but the
operator-2FA flow returns a distinct message per sub-case: not-found,
expired and mismatch each get their own 401 body. -/
theorem c8_failure_messages (st : DBState) (email code : String) (now : Nat)
    (m : AuthMap) (a : AuthEntry) :
    (pickNewest (activeMatches st email code now) = none →
      verifyEmailRoute email code now st
        = (st, (400, false, "유효하지 않거나 만료된 인증 코드입니다."))) ∧
    (AuthMap.get m email = none →
      (adminVerifyAuth m email code now).2
        = (401, false, "인증 코드가 존재하지 않습니다. 다시 로그인해 주세요.")) ∧
    (AuthMap.get m email = some a → a.expiresAt < now →
      (adminVerifyAuth m email code now).2
        = (401, false, "인증 코드가 만료되었습니다. 다시 로그인해 주세요.")) ∧
    (AuthMap.get m email = some a → ¬ a.expiresAt < now → a.code ≠ code →
      (adminVerifyAuth m email code now).2
        = (401, false, "잘못된 인증 코드입니다.")) := by
  refine ⟨fun h => ?_, fun h => ?_, fun h h2 => ?_, fun h h2 h3 => ?_⟩
  · unfold verifyEmailRoute EmailVerification.verify
    rw [h]
  · rw [adminVerifyAuth_get_none m email code now h]
  · simp only [adminVerifyAuth, h, h2, if_true]
  · simp only [adminVerifyAuth, h, h2, if_false, h3, ite_not, if_neg]

/-- C8, witness: concrete failures in both flows hitting all four
branches: an empty email store gives the generic message; the admin route
gives each of its three distinct messages. -/
theorem c8_witness :
    verifyEmailRoute "a@x.com" "999999" 100 demoState
      = (demoState, (400, false, "유효하지 않거나 만료된 인증 코드입니다.")) ∧
    (adminVerifyAuth [] "e@x.com" "111111" 500).2
      = (401, false, "인증 코드가 존재하지 않습니다. 다시 로그인해 주세요.") ∧
    (adminVerifyAuth [("e@x.com", demoAuthEntry)] "e@x.com" "111111" 2000).2
      = (401, false, "인증 코드가 만료되었습니다. 다시 로그인해 주세요.") ∧
    (adminVerifyAuth [("e@x.com", demoAuthEntry)] "e@x.com" "222222" 500).2
      = (401, false, "잘못된 인증 코드입니다.") :=
  ⟨(c8_failure_messages demoState "a@x.com" "999999" 100 [] demoAuthEntry).1 (by decide),
   (c8_failure_messages demoState "e@x.com" "111111" 500 [] demoAuthEntry).2.1 (by decide),
   (c8_failure_messages demoState "e@x.com" "111111" 2000
      [("e@x.com", demoAuthEntry)] demoAuthEntry).2.2.1 (by decide) (by decide),
   (c8_failure_messages demoState "e@x.com" "222222" 500
      [("e@x.com", demoAuthEntry)] demoAuthEntry).2.2.2 (by decide) (by decide) (by decide)⟩

/-- When the active match is unique, `verify` succeeds: it consumes the row
and flags the user. -/
theorem verify_of_activeMatches_singleton (st : DBState) (email code : String)
    (now : Nat) (r : VRec) (k : Nat)
    (hAm : activeMatches st email code now = [r]) (hu : r.user_id = some k)
    (ha : st.users.any (fun u => u.id = k) = true) :
    EmailVerification.verify email code now st
      = .ok (markUserVerified (consumeRec st r.id) k, some r) := by
  unfold EmailVerification.verify
  simp only [hAm, pickNewest_singleton, hu]
  have hc : ((consumeRec st r.id).users.any (fun u => u.id = k)) = true := ha
  rw [if_pos hc]

/-- C9: a failed notification dispatch neither changes the issuing call's
outcome nor invalidates the stored code.  `create` with a failing dispatch
stores the same row, leaves the same tables and returns the same record as
with a successful dispatch, and its stored code verifies before expiry (for
an email with no other active code with the same value, issued for an
existing user). -/
theorem c9_dispatch_failure_harmless (email : String) (now rand now' : Nat)
    (st : DBState) (k : Nat)
    (hnew : ∀ v ∈ st.verifications,
      ¬(v.email = email ∧ v.code = generateVerificationCode rand))
    (huser : st.users.any (fun u => u.id = k) = true)
    (htime : now' < now + codeTTL) :
    ((EmailVerification.create (some k) email now rand false st).1.verifications
       = (EmailVerification.create (some k) email now rand true st).1.verifications ∧
     (EmailVerification.create (some k) email now rand false st).1.users
       = (EmailVerification.create (some k) email now rand true st).1.users ∧
     (EmailVerification.create (some k) email now rand false st).2
       = (EmailVerification.create (some k) email now rand true st).2) ∧
    isVerifySuccess
      (EmailVerification.verify email (generateVerificationCode rand) now'
        (EmailVerification.create (some k) email now rand false st).1) = true := by
  refine ⟨⟨rfl, rfl, rfl⟩, ?_⟩
  have hv : (EmailVerification.create (some k) email now rand false st).1.verifications
      = st.verifications ++
        [{ id := st.nextId, user_id := some k, email := email,
           code := generateVerificationCode rand, expires_at := now + codeTTL,
           is_verified := false, created_at := now }] := rfl
  have h1 : st.verifications.filter
      (fun r => r.email = email ∧ r.code = generateVerificationCode rand ∧
        r.is_verified = false ∧ now' < r.expires_at) = [] := by
    rw [List.filter_eq_nil_iff]
    intro v hv'
    intro hp
    rw [decide_eq_true_eq] at hp
    exact hnew v hv' ⟨hp.1, hp.2.1⟩
  have hAm : activeMatches (EmailVerification.create (some k) email now rand false st).1
      email (generateVerificationCode rand) now'
      = [{ id := st.nextId, user_id := some k, email := email,
           code := generateVerificationCode rand, expires_at := now + codeTTL,
           is_verified := false, created_at := now }] := by
    unfold activeMatches
    rw [hv, List.filter_append, h1]
    simp [htime]
  rw [verify_of_activeMatches_singleton _ _ _ _ _ k hAm rfl huser]
  rfl

/-- C9, witness: a concrete issuance with failing dispatch — the store and
result match the successful-dispatch run, and the stored code verifies
two minutes later. -/
theorem c9_witness :
    ((EmailVerification.create (some 7) "a@x.com" 0 23456 false demoState).1.verifications
       = (EmailVerification.create (some 7) "a@x.com" 0 23456 true demoState).1.verifications ∧
     (EmailVerification.create (some 7) "a@x.com" 0 23456 false demoState).1.users
       = (EmailVerification.create (some 7) "a@x.com" 0 23456 true demoState).1.users ∧
     (EmailVerification.create (some 7) "a@x.com" 0 23456 false demoState).2
       = (EmailVerification.create (some 7) "a@x.com" 0 23456 true demoState).2) ∧
    isVerifySuccess
      (EmailVerification.verify "a@x.com" (generateVerificationCode 23456) 120000
        (EmailVerification.create (some 7) "a@x.com" 0 23456 false demoState).1) = true :=
  c9_dispatch_failure_harmless "a@x.com" 0 23456 120000 demoState 7
    (by decide) (by decide) (by decide)

/-- C10, counterexample: the claim says `getStatus` reports
`days_remaining = max(0, gracePeriod − (now − deletion_requested_at))`.
One day into the window that formula gives 29 days, but
`User.getDeletionStatus` reports the literal 0. -/
theorem c10_counterexample :
    User.getDeletionStatus [pendingUser] 7
      = .ok { is_deletion_scheduled := true, is_active := false,
              deletion_scheduled_at := some 0, days_remaining := 0,
              can_recover := true } ∧
    claimedDaysRemaining 86400000 0 = 29 ∧ (0 : Nat) ≠ 29 :=
  ⟨rfl, by decide, by decide⟩

/-- C10, amended: `getDeletionStatus` is a pure select (it takes the table
and returns only a view) and always reports `days_remaining = 0` — hence
never negative, but not the claimed formula; the SQL `get_deletion_status`
does compute remaining days, and reports a NEGATIVE value once the window
has lapsed. -/
theorem c10_status_projection (users : List URec) (uid : Nat)
    (v : DeletionStatusView)
    (h : User.getDeletionStatus users uid = .ok v) :
    v.days_remaining = 0 ∧
    (∃ now : Nat, ∃ su : List SqlURec, ∃ sid : Nat, ∃ d : Int,
      sqlGetDeletionStatus now su sid = .ok (true, d) ∧ d < 0) := by
  constructor
  · unfold User.getDeletionStatus at h
    cases hf : users.find? (fun u => u.id = uid) with
    | none =>
      simp only [hf] at h
      exact Except.noConfusion h
    | some u =>
      simp only [hf, Except.ok.injEq] at h
      rw [← h]
  · refine ⟨32 * 86400000,
      [{ id := 1, deletion_scheduled_at := some 0, deletion_reason := none,
         is_active := false }], 1, -2, ?_, ?_⟩
    · rfl
    · decide

/-- C10, witness: the concrete pending account's view has
`days_remaining = 0`, and the SQL projection goes negative two days past
the window. -/
theorem c10_witness :
    ({ is_deletion_scheduled := true, is_active := false,
       deletion_scheduled_at := some 0, days_remaining := 0,
       can_recover := true } : DeletionStatusView).days_remaining = 0 ∧
    (∃ now : Nat, ∃ su : List SqlURec, ∃ sid : Nat, ∃ d : Int,
      sqlGetDeletionStatus now su sid = .ok (true, d) ∧ d < 0) :=
  c10_status_projection [pendingUser] 7 _ rfl
